import Mathlib

/-!
Shallow embedding of the data-access layer of the `symbols-awakening-mcp`
repository: the entity model (`src/types/Symbol.ts`), the in-memory demo
backend (`src/database/DemoDatabase.ts`), the Prisma backend
(`src/database/PrismaDatabase.ts` and the merged variant), the PostgreSQL
backend (`src/database/Database.ts`) and the CSV bulk-transfer service
(`src/services/CsvService.ts`).  Timestamps are modelled as natural numbers
(`Date.now()` ticks); the current time is passed explicitly to every
operation that reads the clock.  JavaScript `Record<string, _>` payloads
that no claim inspects structurally (`interpretations`, `properties`) are
modelled as association lists of strings.
-/

namespace SymbolsMcp

/-- The `Symbol` entity of `src/types/Symbol.ts`, extended with the
`created_at` / `updated_at` timestamps that the backends attach
(`Omit<Symbol, "created_at" | "updated_at">` appears throughout the
backend signatures). -/
structure Symbol where
  id : String
  name : String
  category : String
  description : String
  interpretations : List (String × String)
  related_symbols : List String
  properties : List (String × String)
  created_at : Nat
  updated_at : Nat
deriving DecidableEq, Repr

/-- The payload accepted by `createSymbol`: a `Symbol` without the
server-assigned timestamps (`Omit<Symbol, 'created_at' | 'updated_at'>`). -/
structure SymbolInput where
  id : String
  name : String
  category : String
  description : String
  interpretations : List (String × String)
  related_symbols : List String
  properties : List (String × String)
deriving DecidableEq, Repr

/-- Attach the server-assigned timestamps to a create payload
(both set to the same `now()` value, as in the backends). -/
def SymbolInput.toSymbol (s : SymbolInput) (timestamp : Nat) : Symbol :=
  { id := s.id, name := s.name, category := s.category,
    description := s.description, interpretations := s.interpretations,
    related_symbols := s.related_symbols, properties := s.properties,
    created_at := timestamp, updated_at := timestamp }

/-- The `QueryResult<T>` result envelope of `src/types/Symbol.ts`:
`{success: true, data}` or `{success: false, error}`; the error carries
only its message string. -/
inductive QueryResult (α : Type) where
  | ok (data : α)
  | err (msg : String)
deriving DecidableEq, Repr

/-- The `data` payload of an envelope, with a default for the failure case
(mirrors optional chaining such as `result.data ?? []` at call sites). -/
def QueryResult.dataD {α : Type} (r : QueryResult α) (d : α) : α :=
  match r with
  | .ok a => a
  | .err _ => d

/-- The `QueryOptions` of `src/types/Symbol.ts` restricted to the two
fields every backend reads (`limit`, `offset`); the unused optional
`query` / `category` fields are omitted. -/
structure QueryOptions where
  limit : Option Nat := none
  offset : Option Nat := none
deriving DecidableEq, Repr

/-- `normalize` from `DemoDatabase.ts`: `text.toLowerCase()`, modelled as
a character-wise lower-casing of the string. -/
def normalize (text : String) : String := ⟨text.data.map Char.toLower⟩

/-- Substring occurrence on character lists: `needle` occurs contiguously
in the list. Models JavaScript `String.prototype.includes`. -/
def containsSub (needle : List Char) : List Char → Bool
  | [] => needle.isEmpty
  | c :: rest => needle.isPrefixOf (c :: rest) || containsSub needle rest

/-- JavaScript `hay.includes(needle)` (substring containment). -/
def strContains (hay needle : String) : Bool :=
  containsSub needle.data hay.data

/-- The search haystack built by `DemoDatabase.searchSymbols`:
`[symbol.name, symbol.description ?? "", symbol.category ?? ""].join(" ").toLowerCase()`
(in this schema variant `description` and `category` are non-nullable). -/
def searchHaystack (s : Symbol) : String :=
  normalize (s.name ++ " " ++ s.description ++ " " ++ s.category)

namespace DemoDatabase

/-- `DemoDatabase.getSymbols`: `this.symbols.slice(offset, offset + limit)`
with `limit = 50`, `offset = 0` defaults; no reordering. The state is the
in-memory `symbols` array. -/
def getSymbols (symbols : List Symbol) (options : QueryOptions) :
    QueryResult (List Symbol) :=
  let limit := options.limit.getD 50
  let offset := options.offset.getD 0
  .ok ((symbols.drop offset).take limit)

/-- `DemoDatabase.getSymbol`: first stored symbol with the id, else `null`
(still a success envelope). -/
def getSymbol (symbols : List Symbol) (id : String) :
    QueryResult (Option Symbol) :=
  .ok (symbols.find? (fun item => item.id == id))

/-- `DemoDatabase.searchSymbols`: keeps the stored order, filtering on
substring containment of the lower-cased query in the space-joined
name/description/category haystack, then slices `[offset, offset+limit)`. -/
def searchSymbols (symbols : List Symbol) (query : String)
    (options : QueryOptions) : QueryResult (List Symbol) :=
  let limit := options.limit.getD 50
  let offset := options.offset.getD 0
  let needle := normalize query
  let results := symbols.filter (fun s => strContains (searchHaystack s) needle)
  .ok ((results.drop offset).take limit)

/-- `DemoDatabase.filterByCategory`: case-insensitive equality on
`category`, then the same slice. -/
def filterByCategory (symbols : List Symbol) (category : String)
    (options : QueryOptions) : QueryResult (List Symbol) :=
  let limit := options.limit.getD 50
  let offset := options.offset.getD 0
  let needle := normalize category
  let results := symbols.filter (fun s => normalize s.category == needle)
  .ok ((results.drop offset).take limit)

/-- `DemoDatabase.createSymbol`: rejects a colliding id with an
"already exists" failure envelope and leaves the array untouched;
otherwise pushes the timestamped record at the end. Returns the envelope
together with the updated state. -/
def createSymbol (symbols : List Symbol) (symbol : SymbolInput) (now : Nat) :
    QueryResult Symbol × List Symbol :=
  if symbols.any (fun item => item.id == symbol.id) then
    (.err ("Symbol with ID \"" ++ symbol.id ++ "\" already exists"), symbols)
  else
    let created := symbol.toSymbol now
    (.ok created, symbols ++ [created])

/-- `DemoDatabase.deleteSymbol`: fails with the "not found" envelope when
no stored symbol has the id; otherwise splices out the first match and,
when `cascade` is set, maps over the remaining symbols removing the id
from each `related_symbols` list.  Note the cascade map rebuilds each
symbol with only `related_symbols` replaced — `updated_at` is untouched. -/
def deleteSymbol (symbols : List Symbol) (id : String) (cascade : Bool) :
    QueryResult Bool × List Symbol :=
  if symbols.any (fun item => item.id == id) then
    let remaining := symbols.eraseP (fun item => item.id == id)
    let final :=
      if cascade then
        remaining.map (fun symbol =>
          { symbol with
            related_symbols :=
              symbol.related_symbols.filter (fun related => related != id) })
      else remaining
    (.ok true, final)
  else
    (.err ("Symbol with ID \"" ++ id ++ "\" not found"), symbols)

end DemoDatabase

/-- Lexicographic less-or-equal on character lists (by code point). -/
def charListLe : List Char → List Char → Bool
  | [], _ => true
  | _ :: _, [] => false
  | a :: as, b :: bs => if a = b then charListLe as bs else decide (a < b)

/-- Boolean name comparison modelling the SQL / Prisma `ORDER BY name ASC`
collation as lexicographic order on the name string. -/
def nameLe (a b : Symbol) : Bool := charListLe a.name.data b.name.data

/-- The shared `WHERE` clause of the relational search queries: the query
occurs case-insensitively in `name`, `description` or `category`
(SQL `ILIKE '%q%'` and Prisma `contains .. mode: "insensitive"`, both
modelled as case-insensitive substring containment; `%`/`_` wildcard
escapes inside the query string are not modelled). -/
def matchesQuery (query : String) (s : Symbol) : Bool :=
  strContains (normalize s.name) (normalize query) ||
  strContains (normalize s.description) (normalize query) ||
  strContains (normalize s.category) (normalize query)

namespace PrismaDatabase

/-- `PrismaDatabase.getSymbols` (src/unnamed/part_006 lines 155-173): the
Prisma call `findMany({take: limit, skip: offset, orderBy: {name: "asc"}})`
is modelled as sort-by-name, then drop `offset`, then take `limit` over the
table rows. -/
def getSymbols (rows : List Symbol) (options : QueryOptions) :
    QueryResult (List Symbol) :=
  let limit := options.limit.getD 50
  let offset := options.offset.getD 0
  .ok (((rows.mergeSort nameLe).drop offset).take limit)

/-- `PrismaDatabase.searchSymbols`: `findMany` with the insensitive
`OR`-contains filter on name/description/category, ordered by name
ascending only (no rank buckets), with take/skip. -/
def searchSymbols (rows : List Symbol) (query : String)
    (options : QueryOptions) : QueryResult (List Symbol) :=
  let limit := options.limit.getD 50
  let offset := options.offset.getD 0
  .ok ((((rows.filter (matchesQuery query)).mergeSort nameLe).drop offset).take limit)

/-- `PrismaDatabase.createSymbol` (part_006 lines 331-356): the Prisma
`create` raises a unique-constraint error when the id is already present,
which the catch branch translates into the "already exists" envelope;
otherwise the row is inserted with both timestamps set server-side. -/
def createSymbol (rows : List Symbol) (symbol : SymbolInput) (now : Nat) :
    QueryResult Symbol × List Symbol :=
  if rows.any (fun item => item.id == symbol.id) then
    (.err ("Symbol with ID \"" ++ symbol.id ++ "\" already exists"), rows)
  else
    let created := symbol.toSymbol now
    (.ok created, rows ++ [created])

/-- `PrismaDatabase.deleteSymbol` (part_006 lines 387-438): `findUnique`
existence check, then — when `cascade` — an update of every row whose
`related_symbols` array `has` the id (filtering the id out and setting
`updated_at: new Date()`), then the `delete` of the row itself. -/
def deleteSymbol (rows : List Symbol) (id : String) (cascade : Bool)
    (now : Nat) : QueryResult Bool × List Symbol :=
  if rows.any (fun item => item.id == id) then
    let updatedRows :=
      if cascade then
        rows.map (fun refSymbol =>
          if refSymbol.related_symbols.contains id then
            { refSymbol with
              related_symbols :=
                refSymbol.related_symbols.filter (fun relatedId => relatedId != id),
              updated_at := now }
          else refSymbol)
      else rows
    (.ok true, updatedRows.eraseP (fun item => item.id == id))
  else
    (.err ("Symbol with ID \"" ++ id ++ "\" not found"), rows)

end PrismaDatabase

namespace PostgreSQLDatabase

/-- The `CASE WHEN name ILIKE $1 THEN 1 WHEN category ILIKE $1 THEN 2
ELSE 3 END` rank expression of `PostgreSQLDatabase.searchSymbols`
(src/src/database/Database.ts lines 143-148). -/
def searchRank (query : String) (s : Symbol) : Nat :=
  if strContains (normalize s.name) (normalize query) then 1
  else if strContains (normalize s.category) (normalize query) then 2
  else 3

/-- The full `ORDER BY rank, name` key of the PostgreSQL search query as a
boolean total preorder. -/
def rankNameLe (query : String) (a b : Symbol) : Bool :=
  decide (searchRank query a < searchRank query b) ||
  (decide (searchRank query a = searchRank query b) && nameLe a b)

/-- `PostgreSQLDatabase.searchSymbols` (Database.ts lines 130-163): the SQL
query filters rows by the `ILIKE`-`OR` clause, orders by the rank bucket
then name, and applies `LIMIT`/`OFFSET`; modelled as filter, sort by the
rank-then-name key, drop, take. -/
def searchSymbols (table : List Symbol) (searchQuery : String)
    (options : QueryOptions) : QueryResult (List Symbol) :=
  let limit := options.limit.getD 50
  let offset := options.offset.getD 0
  let matched := table.filter (matchesQuery searchQuery)
  .ok (((matched.mergeSort (rankNameLe searchQuery)).drop offset).take limit)

end PostgreSQLDatabase

/-- A call outcome in the exception model: `Except.ok` is a normal return,
`Except.error` is a raised (uncaught) JavaScript `Error` carrying its
message.  A `try { body } catch (e) { handler }` block runs the handler on
the thrown message. -/
def tryCatchWith {α : Type} (body : Except String α)
    (handler : String → Except String α) : Except String α :=
  match body with
  | .error m => handler m
  | .ok a => .ok a

namespace PrismaDatabase

/-- `PrismaDatabase.connect` in the exception model: the underlying
`$connect()` outcome is the oracle; the catch branch RE-THROWS a wrapped
`Error` instead of returning an envelope (the method returns `void`). -/
def connectRun (clientConnect : Except String Unit) : Except String Unit :=
  tryCatchWith clientConnect
    (fun m => .error ("Failed to connect to database: " ++ m))

/-- `PrismaDatabase.initializeSchema` in the exception model: throws
"Database not connected" outside any try block when not connected; the
catch around the `db push` / seed steps re-throws a wrapped `Error`. -/
def initializeSchemaRun (connected : Bool) (includeSampleData : Bool)
    (dbPush seedRun : Except String Unit) : Except String Unit :=
  if !connected then .error "Database not connected"
  else
    tryCatchWith
      (match dbPush with
       | .error m => .error m
       | .ok _ => if includeSampleData then seedRun else .ok ())
      (fun m => .error ("Failed to initialize database schema: " ++ m))

/-- `PrismaDatabase.getSymbols` in the exception model: the whole body
(including the not-connected throw) sits inside `try`, and the catch
returns the failure envelope, so the caller always receives an envelope. -/
def getSymbolsRun (connected : Bool)
    (clientFindMany : Except String (List Symbol)) :
    Except String (QueryResult (List Symbol)) :=
  tryCatchWith
    (if !connected then .error "Database not connected"
     else
       match clientFindMany with
       | .error m => .error m
       | .ok rows => .ok (QueryResult.ok rows))
    (fun m => .ok (.err m))

end PrismaDatabase

namespace PostgreSQLDatabase

/-- `PostgreSQLDatabase.connect` (Database.ts lines 87-104) in the
exception model: the pool connection test is the oracle; the catch branch
re-throws `Failed to connect to database: ...` to the caller. -/
def connectRun (poolConnect : Except String Unit) : Except String Unit :=
  tryCatchWith poolConnect
    (fun m => .error ("Failed to connect to database: " ++ m))

end PostgreSQLDatabase

namespace CsvService

/-- The options of `CsvService.exportSymbols` that determine behaviour
(the progress callback is omitted). -/
structure ExportOptions where
  filePath : String
  category : Option String := none
  symbolIds : Option (List String) := none
deriving DecidableEq, Repr

/-- The `ExportResult` record of `CsvService.ts`. -/
structure ExportResult where
  success : Bool
  exported : Nat
  filePath : String
  error : Option String := none
deriving DecidableEq, Repr

/-- The symbol-selection phase of `CsvService.exportSymbols` (lines
244-265), run against the demo backend state: an explicit non-empty id
allow-list filters a `getSymbols({limit: 10000})` probe; otherwise a
truthy (non-empty) category uses `filterByCategory`; otherwise all
symbols are fetched.  A failed envelope leaves the selection empty. -/
def exportSelection (db : List Symbol) (options : ExportOptions) :
    List Symbol :=
  if (options.symbolIds.getD []).length > 0 then
    match DemoDatabase.getSymbols db { limit := some 10000 } with
    | .ok rows => rows.filter (fun s => (options.symbolIds.getD []).contains s.id)
    | .err _ => []
  else
    match options.category with
    | some category =>
      if category.isEmpty then
        match DemoDatabase.getSymbols db { limit := some 10000 } with
        | .ok rows => rows
        | .err _ => []
      else
        match DemoDatabase.filterByCategory db category { limit := some 10000 } with
        | .ok rows => rows
        | .err _ => []
    | none =>
      match DemoDatabase.getSymbols db { limit := some 10000 } with
      | .ok rows => rows
      | .err _ => []

/-- A symbol matches the requested export filter: its id is in the
allow-list when one is given, else its category equals a truthy category
filter (the demo backend compares categories case-insensitively), else
anything matches. -/
def matchesExportFilter (options : ExportOptions) (s : Symbol) : Bool :=
  if (options.symbolIds.getD []).length > 0 then
    (options.symbolIds.getD []).contains s.id
  else
    match options.category with
    | some category =>
      if category.isEmpty then true
      else normalize s.category == normalize category
    | none => true

/-- `CsvService.exportSymbols` (lines 240-330): when the selection is
empty it returns the explicit failure before any file-system interaction;
otherwise it serializes and writes the rows.  The boolean component
records whether the CSV writer was invoked (an output file written); the
row serialization itself is elided. -/
def exportSymbols (db : List Symbol) (options : ExportOptions) :
    ExportResult × Bool :=
  let symbols := exportSelection db options
  if symbols.length = 0 then
    ({ success := false, exported := 0, filePath := options.filePath,
       error := some "No symbols found matching the criteria" }, false)
  else
    ({ success := true, exported := symbols.length,
       filePath := options.filePath, error := none }, true)

/-- Outcome of one validated CSV row during import: counted as created,
counted as skipped, or recorded as a row-level error. -/
inductive ImportRowOutcome where
  | created
  | skipped
  | rowError (msg : String)
deriving DecidableEq, Repr

/-- The per-row body of `CsvService.importSymbols` (lines 153-219) for a
row that passed schema validation, run against the demo backend: the
duplicate probe is `getSymbols({limit: 1})` and the row counts as existing
only when its id appears among the (at most one) probed symbols; an
existing id is a row error when `skipDuplicates` is off and a skip when it
is on; otherwise the row is forwarded to `createSymbol` and a failure
envelope from it is recorded as a row error. -/
def importRow (db : List Symbol) (row : SymbolInput) (skipDuplicates : Bool)
    (now : Nat) : ImportRowOutcome × List Symbol :=
  let existingSymbol := DemoDatabase.getSymbols db { limit := some 1 }
  let symbolExists :=
    match existingSymbol with
    | .ok rows => rows.any (fun s => s.id == row.id)
    | .err _ => false
  if symbolExists && !skipDuplicates then
    (.rowError ("Symbol with ID \"" ++ row.id ++ "\" already exists"), db)
  else if symbolExists && skipDuplicates then
    (.skipped, db)
  else
    match DemoDatabase.createSymbol db row now with
    | (.ok _, db2) => (.created, db2)
    | (.err msg, db2) => (.rowError msg, db2)

end CsvService

/-- A concrete five-record demo store state with pairwise distinct ids,
as produced by seeding plus successful creates. -/
def sampleStore : List Symbol :=
  [⟨"s1", "n1", "c", "d", [], [], [], 0, 0⟩,
   ⟨"s2", "n2", "c", "d", [], [], [], 0, 0⟩,
   ⟨"s3", "n3", "c", "d", [], [], [], 0, 0⟩,
   ⟨"s4", "n4", "c", "d", [], [], [], 0, 0⟩,
   ⟨"s5", "n5", "c", "d", [], [], [], 0, 0⟩]

end SymbolsMcp

namespace SymbolsMcp

theorem charListLe_trans :
    ∀ xs ys zs : List Char, charListLe xs ys = true →
      charListLe ys zs = true → charListLe xs zs = true := by
  intro xs
  induction xs with
  | nil => intro ys zs _ _; rfl
  | cons x xs' ih =>
    intro ys zs h1 h2
    cases ys with
    | nil => simp [charListLe] at h1
    | cons y ys' =>
      cases zs with
      | nil => simp [charListLe] at h2
      | cons z zs' =>
        simp only [charListLe] at h1 h2 ⊢
        by_cases hxy : x = y
        · subst hxy
          simp only [if_pos rfl] at h1
          by_cases hyz : x = z
          · subst hyz
            simp only [if_pos rfl] at h2 ⊢
            exact ih ys' zs' h1 h2
          · simp only [if_neg hyz] at h2 ⊢
            exact h2
        · simp only [if_neg hxy, decide_eq_true_eq] at h1
          by_cases hyz : y = z
          · subst hyz
            simp only [if_neg hxy, decide_eq_true_eq]
            exact h1
          · simp only [if_neg hyz, decide_eq_true_eq] at h2
            have hlt : x < z := lt_trans h1 h2
            have hxz : ¬ x = z := ne_of_lt hlt
            simp only [if_neg hxz, decide_eq_true_eq]
            exact hlt

theorem charListLe_total :
    ∀ xs ys : List Char, (charListLe xs ys || charListLe ys xs) = true := by
  intro xs
  induction xs with
  | nil => intro ys; rfl
  | cons x xs' ih =>
    intro ys
    cases ys with
    | nil => rfl
    | cons y ys' =>
      simp only [charListLe, Bool.or_eq_true, decide_eq_true_eq]
      by_cases hxy : x = y
      · subst hxy
        simpa only [if_pos rfl, Bool.or_eq_true] using
          (by simpa [Bool.or_eq_true] using ih ys' :
            charListLe xs' ys' = true ∨ charListLe ys' xs' = true)
      · have hyx : ¬ y = x := fun h => hxy h.symm
        simp only [if_neg hxy, if_neg hyx, decide_eq_true_eq]
        rcases lt_or_gt_of_ne hxy with h | h
        · exact Or.inl h
        · exact Or.inr h

theorem nameLe_trans (a b c : Symbol) (hab : nameLe a b = true)
    (hbc : nameLe b c = true) : nameLe a c = true :=
  charListLe_trans _ _ _ hab hbc

theorem nameLe_total (a b : Symbol) : (nameLe a b || nameLe b a) = true :=
  charListLe_total _ _

theorem rankNameLe_trans (q : String) (a b c : Symbol)
    (hab : PostgreSQLDatabase.rankNameLe q a b = true)
    (hbc : PostgreSQLDatabase.rankNameLe q b c = true) :
    PostgreSQLDatabase.rankNameLe q a c = true := by
  simp only [PostgreSQLDatabase.rankNameLe, Bool.or_eq_true,
    Bool.and_eq_true, decide_eq_true_eq] at *
  rcases hab with h1 | ⟨h1, h1'⟩ <;> rcases hbc with h2 | ⟨h2, h2'⟩
  · exact Or.inl (lt_trans h1 h2)
  · exact Or.inl (h2 ▸ h1)
  · exact Or.inl (h1 ▸ h2)
  · exact Or.inr ⟨h1.trans h2, nameLe_trans _ _ _ h1' h2'⟩

theorem rankNameLe_total (q : String) (a b : Symbol) :
    (PostgreSQLDatabase.rankNameLe q a b ||
      PostgreSQLDatabase.rankNameLe q b a) = true := by
  simp only [PostgreSQLDatabase.rankNameLe, Bool.or_eq_true,
    Bool.and_eq_true, decide_eq_true_eq]
  rcases Nat.lt_trichotomy (PostgreSQLDatabase.searchRank q a)
      (PostgreSQLDatabase.searchRank q b) with h | h | h
  · exact Or.inl (Or.inl h)
  · rcases Bool.or_eq_true_iff.mp (nameLe_total a b) with hn | hn
    · exact Or.inl (Or.inr ⟨h, hn⟩)
    · exact Or.inr (Or.inr ⟨h.symm, hn⟩)
  · exact Or.inr (Or.inl h)

/-- C1: for every store state and query string `q`, the result set of
`searchSymbols(q)` is a subset of the `getSymbols()` result set over the
same data, and every returned record's name, description, or category
contains `q` case-insensitively.  COUNTEREXAMPLE: the demo backend matches
the query against the SPACE-JOINED name/description/category haystack, so
the query "a b" matches a record (across the name/description boundary)
none of whose individual fields contains it. -/
theorem claim1_counterexample :
    DemoDatabase.searchSymbols
        [{ id := "s1", name := "xa", category := "zq", description := "by",
           interpretations := [], related_symbols := [], properties := [],
           created_at := 0, updated_at := 0 }] "a b" {} =
      QueryResult.ok
        [{ id := "s1", name := "xa", category := "zq", description := "by",
           interpretations := [], related_symbols := [], properties := [],
           created_at := 0, updated_at := 0 }] ∧
    strContains (normalize "xa") (normalize "a b") = false ∧
    strContains (normalize "by") (normalize "a b") = false ∧
    strContains (normalize "zq") (normalize "a b") = false := by decide

/-- C1 amended: every record returned by the demo backend's
`searchSymbols(q)` occurs in the full store listing (`getSymbols` with
limit equal to the store size), and the lower-cased space-joined
concatenation of its name, description and category contains `q`
case-insensitively. -/
theorem claim1_theorem (db : List Symbol) (q : String) (opts : QueryOptions)
    (s : Symbol)
    (hs : s ∈ (DemoDatabase.searchSymbols db q opts).dataD []) :
    s ∈ (DemoDatabase.getSymbols db
          { limit := some db.length, offset := some 0 }).dataD [] ∧
    strContains (searchHaystack s) (normalize q) = true := by
  have hs' : s ∈ ((db.filter fun t => strContains (searchHaystack t)
      (normalize q)).drop (opts.offset.getD 0)).take (opts.limit.getD 50) := hs
  have hmem :
      s ∈ db.filter fun t => strContains (searchHaystack t) (normalize q) :=
    ((List.take_sublist _ _).trans (List.drop_sublist _ _)).subset hs'
  rw [List.mem_filter] at hmem
  refine ⟨?_, hmem.2⟩
  show s ∈ (db.drop 0).take db.length
  simpa using hmem.1

/-- C1 witness: the amended statement instantiated at a one-record store
and the query "xa". -/
theorem claim1_witness :
    ({ id := "s1", name := "xa", category := "zq", description := "by",
       interpretations := [], related_symbols := [], properties := [],
       created_at := 0, updated_at := 0 } : Symbol) ∈
      (DemoDatabase.getSymbols
        [{ id := "s1", name := "xa", category := "zq", description := "by",
           interpretations := [], related_symbols := [], properties := [],
           created_at := 0, updated_at := 0 }]
        { limit := some 1, offset := some 0 }).dataD [] ∧
    strContains
      (searchHaystack
        { id := "s1", name := "xa", category := "zq", description := "by",
          interpretations := [], related_symbols := [], properties := [],
          created_at := 0, updated_at := 0 })
      (normalize "xa") = true :=
  claim1_theorem
    [{ id := "s1", name := "xa", category := "zq", description := "by",
       interpretations := [], related_symbols := [], properties := [],
       created_at := 0, updated_at := 0 }] "xa" {} _ (by decide)

/-- C2: getSymbols returns up to `limit` symbols (default 50) ordered by
name ascending after skipping `offset`.  COUNTEREXAMPLE: the demo backend
never sorts — a store holding names "b" then "a" is returned in stored
order, which is not ascending by name. -/
theorem claim2_counterexample :
    DemoDatabase.getSymbols
        [{ id := "b1", name := "b", category := "c", description := "d",
           interpretations := [], related_symbols := [], properties := [],
           created_at := 0, updated_at := 0 },
         { id := "a1", name := "a", category := "c", description := "d",
           interpretations := [], related_symbols := [], properties := [],
           created_at := 0, updated_at := 0 }] {} =
      QueryResult.ok
        [{ id := "b1", name := "b", category := "c", description := "d",
           interpretations := [], related_symbols := [], properties := [],
           created_at := 0, updated_at := 0 },
         { id := "a1", name := "a", category := "c", description := "d",
           interpretations := [], related_symbols := [], properties := [],
           created_at := 0, updated_at := 0 }] ∧
    ¬ List.Pairwise (fun x y : Symbol => nameLe x y = true)
        [{ id := "b1", name := "b", category := "c", description := "d",
           interpretations := [], related_symbols := [], properties := [],
           created_at := 0, updated_at := 0 },
         { id := "a1", name := "a", category := "c", description := "d",
           interpretations := [], related_symbols := [], properties := [],
           created_at := 0, updated_at := 0 }] := by decide

/-- C2 amended: the demo backend's `getSymbols` returns the window
`[offset, offset+limit)` of its stored sequence unsorted (default limit
50, offset 0), while the Prisma backend returns at most `limit` symbols
(default 50) ordered by name ascending after skipping `offset` of the
sorted order. -/
theorem claim2_theorem :
    (∀ (db : List Symbol) (opts : QueryOptions),
        DemoDatabase.getSymbols db opts =
          QueryResult.ok
            ((db.drop (opts.offset.getD 0)).take (opts.limit.getD 50))) ∧
    (∀ (rows : List Symbol) (opts : QueryOptions),
        ((PrismaDatabase.getSymbols rows opts).dataD []).length ≤
            opts.limit.getD 50 ∧
        List.Pairwise (fun a b => nameLe a b = true)
          ((PrismaDatabase.getSymbols rows opts).dataD [])) := by
  constructor
  · intro db opts
    rfl
  · intro rows opts
    constructor
    · show (((rows.mergeSort nameLe).drop (opts.offset.getD 0)).take
          (opts.limit.getD 50)).length ≤ opts.limit.getD 50
      rw [List.length_take]
      omega
    · show List.Pairwise (fun a b => nameLe a b = true)
        (((rows.mergeSort nameLe).drop (opts.offset.getD 0)).take
          (opts.limit.getD 50))
      exact List.Pairwise.sublist
        ((List.take_sublist _ _).trans (List.drop_sublist _ _))
        (List.sorted_mergeSort nameLe_trans nameLe_total rows)

theorem contains_filter_ne (l : List String) (id : String) :
    ((l.filter fun relatedId => relatedId != id).contains id) = false := by
  rw [Bool.eq_false_iff]
  intro h
  have hm : id ∈ l.filter fun relatedId => relatedId != id :=
    List.mem_of_elem_eq_true h
  rw [List.mem_filter] at hm
  simp at hm

/-- C3: search results are ordered name-match first, then category match,
then description-only match, ties by name ascending.  COUNTEREXAMPLE: the
demo backend keeps the stored order — a description-only match stored
first is returned before a name match. -/
theorem claim3_counterexample :
    DemoDatabase.searchSymbols
        [{ id := "d1", name := "alpha", category := "x",
           description := "the sun rises", interpretations := [],
           related_symbols := [], properties := [],
           created_at := 0, updated_at := 0 },
         { id := "n1", name := "sunset", category := "y",
           description := "zzz", interpretations := [],
           related_symbols := [], properties := [],
           created_at := 0, updated_at := 0 }] "sun" {} =
      QueryResult.ok
        [{ id := "d1", name := "alpha", category := "x",
           description := "the sun rises", interpretations := [],
           related_symbols := [], properties := [],
           created_at := 0, updated_at := 0 },
         { id := "n1", name := "sunset", category := "y",
           description := "zzz", interpretations := [],
           related_symbols := [], properties := [],
           created_at := 0, updated_at := 0 }] ∧
    strContains (normalize "alpha") (normalize "sun") = false ∧
    strContains (normalize "x") (normalize "sun") = false ∧
    strContains (normalize "the sun rises") (normalize "sun") = true ∧
    strContains (normalize "sunset") (normalize "sun") = true := by decide

/-- C3 amended: only the PostgreSQL backend ranks its search results —
its output is ordered by the rank key (name match = 1, category match =
2, description-only = 3) with ties broken by name ascending; the Prisma
backend orders matches by name ascending only, and the demo backend keeps
the stored order (refuted above). -/
theorem claim3_theorem :
    (∀ (table : List Symbol) (q : String) (opts : QueryOptions),
        List.Pairwise
          (fun a b => PostgreSQLDatabase.rankNameLe q a b = true)
          ((PostgreSQLDatabase.searchSymbols table q opts).dataD [])) ∧
    (∀ (rows : List Symbol) (q : String) (opts : QueryOptions),
        List.Pairwise (fun a b => nameLe a b = true)
          ((PrismaDatabase.searchSymbols rows q opts).dataD [])) := by
  constructor
  · intro table q opts
    show List.Pairwise _
      ((((table.filter (matchesQuery q)).mergeSort
          (PostgreSQLDatabase.rankNameLe q)).drop
            (opts.offset.getD 0)).take (opts.limit.getD 50))
    exact List.Pairwise.sublist
      ((List.take_sublist _ _).trans (List.drop_sublist _ _))
      (List.sorted_mergeSort (rankNameLe_trans q) (rankNameLe_total q) _)
  · intro rows q opts
    show List.Pairwise _
      ((((rows.filter (matchesQuery q)).mergeSort nameLe).drop
          (opts.offset.getD 0)).take (opts.limit.getD 50))
    exact List.Pairwise.sublist
      ((List.take_sublist _ _).trans (List.drop_sublist _ _))
      (List.sorted_mergeSort nameLe_trans nameLe_total _)

/-- C4: creating a symbol whose id is already stored fails with the
"already exists" envelope and leaves the store (in particular the
previously stored record with that id) unchanged — in both the demo and
the Prisma backends. -/
theorem claim4_theorem (db rows : List Symbol) (input : SymbolInput)
    (now : Nat)
    (h1 : db.any (fun item => item.id == input.id) = true)
    (h2 : rows.any (fun item => item.id == input.id) = true) :
    DemoDatabase.createSymbol db input now =
      (QueryResult.err
        ("Symbol with ID \"" ++ input.id ++ "\" already exists"), db) ∧
    PrismaDatabase.createSymbol rows input now =
      (QueryResult.err
        ("Symbol with ID \"" ++ input.id ++ "\" already exists"), rows) := by
  constructor
  · simp [DemoDatabase.createSymbol, h1]
  · simp [PrismaDatabase.createSymbol, h2]

/-- C4 witness: a concrete one-record store and a colliding create. -/
theorem claim4_witness :
    DemoDatabase.createSymbol
        [{ id := "river", name := "River", category := "flow",
           description := "d", interpretations := [], related_symbols := [],
           properties := [], created_at := 0, updated_at := 0 }]
        { id := "river", name := "Other", category := "c2",
          description := "d2", interpretations := [], related_symbols := [],
          properties := [] } 3 =
      (QueryResult.err ("Symbol with ID \"" ++ "river" ++ "\" already exists"),
        [{ id := "river", name := "River", category := "flow",
           description := "d", interpretations := [], related_symbols := [],
           properties := [], created_at := 0, updated_at := 0 }]) ∧
    PrismaDatabase.createSymbol
        [{ id := "river", name := "River", category := "flow",
           description := "d", interpretations := [], related_symbols := [],
           properties := [], created_at := 0, updated_at := 0 }]
        { id := "river", name := "Other", category := "c2",
          description := "d2", interpretations := [], related_symbols := [],
          properties := [] } 3 =
      (QueryResult.err ("Symbol with ID \"" ++ "river" ++ "\" already exists"),
        [{ id := "river", name := "River", category := "flow",
           description := "d", interpretations := [], related_symbols := [],
           properties := [], created_at := 0, updated_at := 0 }]) :=
  claim4_theorem _ _ _ 3 (by decide) (by decide)

/-- C5: cascade delete removes the id from every other symbol's
`related_symbols` and refreshes `updated_at` on each modified symbol.
COUNTEREXAMPLE: the demo backend's cascade strips the reference but
leaves `updated_at` untouched (the method does not even read the clock):
the surviving record keeps `updated_at = 7`. -/
theorem claim5_counterexample :
    DemoDatabase.deleteSymbol
        [{ id := "x", name := "X", category := "c", description := "d",
           interpretations := [], related_symbols := [], properties := [],
           created_at := 0, updated_at := 0 },
         { id := "b", name := "B", category := "c", description := "d",
           interpretations := [], related_symbols := ["x"], properties := [],
           created_at := 0, updated_at := 7 }] "x" true =
      (QueryResult.ok true,
        [{ id := "b", name := "B", category := "c", description := "d",
           interpretations := [], related_symbols := [], properties := [],
           created_at := 0, updated_at := 7 }]) := by decide

/-- C5 amended: cascade delete strips the deleted id from every surviving
symbol's `related_symbols` in both backends; the PRISMA backend refreshes
`updated_at` (to the deletion time) exactly on the symbols whose lists
referenced the id, while the DEMO backend leaves every surviving symbol's
`updated_at` (and all other fields) unchanged. -/
theorem claim5_theorem :
    (∀ (rows : List Symbol) (id : String) (now : Nat),
        rows.any (fun item => item.id == id) = true →
        ∀ r ∈ (PrismaDatabase.deleteSymbol rows id true now).2,
          r.related_symbols.contains id = false ∧
          ∃ orig ∈ rows,
            (orig.related_symbols.contains id = true →
              r = { orig with
                    related_symbols :=
                      orig.related_symbols.filter
                        fun relatedId => relatedId != id,
                    updated_at := now }) ∧
            (orig.related_symbols.contains id = false → r = orig)) ∧
    (∀ (db : List Symbol) (id : String),
        db.any (fun item => item.id == id) = true →
        ∀ s ∈ (DemoDatabase.deleteSymbol db id true).2,
          s.related_symbols.contains id = false ∧
          ∃ orig ∈ db,
            s = { orig with
                  related_symbols :=
                    orig.related_symbols.filter
                      fun related => related != id } ∧
            s.updated_at = orig.updated_at) := by
  constructor
  · intro rows id now hany r hr
    have hr2 : r ∈ (rows.map fun refSymbol =>
        if refSymbol.related_symbols.contains id then
          { refSymbol with
            related_symbols :=
              refSymbol.related_symbols.filter
                fun relatedId => relatedId != id,
            updated_at := now }
        else refSymbol).eraseP (fun item => item.id == id) := by
      simpa [PrismaDatabase.deleteSymbol, hany] using hr
    have hr3 := List.mem_of_mem_eraseP hr2
    obtain ⟨orig, horig, hupd⟩ := List.mem_map.mp hr3
    by_cases hc : orig.related_symbols.contains id = true
    · rw [if_pos hc] at hupd
      refine ⟨?_, orig, horig, fun _ => hupd.symm, fun hf => ?_⟩
      · rw [← hupd]
        exact contains_filter_ne _ _
      · rw [hf] at hc
        cases hc
    · rw [if_neg hc] at hupd
      rw [Bool.not_eq_true] at hc
      refine ⟨?_, orig, horig, fun ht => ?_, fun _ => hupd.symm⟩
      · rw [← hupd]
        exact hc
      · rw [ht] at hc
        cases hc
  · intro db id hany s hs
    have hs2 : s ∈ (db.eraseP fun item => item.id == id).map
        (fun symbol =>
          { symbol with
            related_symbols :=
              symbol.related_symbols.filter
                fun related => related != id }) := by
      simpa [DemoDatabase.deleteSymbol, hany] using hs
    obtain ⟨orig, horig2, hstrip⟩ := List.mem_map.mp hs2
    have horig := List.mem_of_mem_eraseP horig2
    refine ⟨?_, orig, horig, hstrip.symm, ?_⟩
    · rw [← hstrip]
      exact contains_filter_ne _ _
    · rw [← hstrip]

/-- C5 witness: the amended statement instantiated at a concrete
two-record store for the Prisma part and the demo part. -/
theorem claim5_witness :
    (({ id := "b", name := "B", category := "c", description := "d",
        interpretations := [], related_symbols := [], properties := [],
        created_at := 0, updated_at := 9 } : Symbol).related_symbols.contains
          "x" = false ∧
      ∃ orig ∈
        ([{ id := "x", name := "X", category := "c", description := "d",
            interpretations := [], related_symbols := [], properties := [],
            created_at := 0, updated_at := 0 },
          { id := "b", name := "B", category := "c", description := "d",
            interpretations := [], related_symbols := ["x"], properties := [],
            created_at := 0, updated_at := 7 }] : List Symbol),
        (orig.related_symbols.contains "x" = true →
          ({ id := "b", name := "B", category := "c", description := "d",
             interpretations := [], related_symbols := [], properties := [],
             created_at := 0, updated_at := 9 } : Symbol) =
            { orig with
              related_symbols :=
                orig.related_symbols.filter
                  fun relatedId => relatedId != "x",
              updated_at := 9 }) ∧
        (orig.related_symbols.contains "x" = false →
          ({ id := "b", name := "B", category := "c", description := "d",
             interpretations := [], related_symbols := [], properties := [],
             created_at := 0, updated_at := 9 } : Symbol) = orig)) ∧
    (({ id := "b", name := "B", category := "c", description := "d",
        interpretations := [], related_symbols := [], properties := [],
        created_at := 0, updated_at := 7 } : Symbol).related_symbols.contains
          "x" = false ∧
      ∃ orig ∈
        ([{ id := "x", name := "X", category := "c", description := "d",
            interpretations := [], related_symbols := [], properties := [],
            created_at := 0, updated_at := 0 },
          { id := "b", name := "B", category := "c", description := "d",
            interpretations := [], related_symbols := ["x"], properties := [],
            created_at := 0, updated_at := 7 }] : List Symbol),
        ({ id := "b", name := "B", category := "c", description := "d",
           interpretations := [], related_symbols := [], properties := [],
           created_at := 0, updated_at := 7 } : Symbol) =
          { orig with
            related_symbols :=
              orig.related_symbols.filter fun related => related != "x" } ∧
        ({ id := "b", name := "B", category := "c", description := "d",
           interpretations := [], related_symbols := [], properties := [],
           created_at := 0, updated_at := 7 } : Symbol).updated_at =
          orig.updated_at) :=
  ⟨claim5_theorem.1
      [{ id := "x", name := "X", category := "c", description := "d",
         interpretations := [], related_symbols := [], properties := [],
         created_at := 0, updated_at := 0 },
       { id := "b", name := "B", category := "c", description := "d",
         interpretations := [], related_symbols := ["x"], properties := [],
         created_at := 0, updated_at := 7 }] "x" 9 (by decide) _ (by decide),
    claim5_theorem.2
      [{ id := "x", name := "X", category := "c", description := "d",
         interpretations := [], related_symbols := [], properties := [],
         created_at := 0, updated_at := 0 },
       { id := "b", name := "B", category := "c", description := "d",
         interpretations := [], related_symbols := ["x"], properties := [],
         created_at := 0, updated_at := 7 }] "x" (by decide) _ (by decide)⟩

/-- C6: deleting an absent id returns a failure envelope carrying the
not-found error and leaves the store unchanged, in both the demo and the
Prisma backends (the NotFound kind is realized as the canonical
`Symbol with ID "<id>" not found` message). -/
theorem claim6_theorem (db rows : List Symbol) (id : String) (cascade : Bool)
    (now : Nat)
    (h1 : db.any (fun item => item.id == id) = false)
    (h2 : rows.any (fun item => item.id == id) = false) :
    DemoDatabase.deleteSymbol db id cascade =
      (QueryResult.err ("Symbol with ID \"" ++ id ++ "\" not found"), db) ∧
    PrismaDatabase.deleteSymbol rows id cascade now =
      (QueryResult.err ("Symbol with ID \"" ++ id ++ "\" not found"), rows) := by
  constructor
  · simp [DemoDatabase.deleteSymbol, h1]
  · simp [PrismaDatabase.deleteSymbol, h2]

/-- C6 witness: the spec scenario `deleteSymbol("missing-id")` on a
one-record store that does not contain that id. -/
theorem claim6_witness :
    DemoDatabase.deleteSymbol
        [{ id := "river", name := "River", category := "flow",
           description := "d", interpretations := [], related_symbols := [],
           properties := [], created_at := 0, updated_at := 0 }]
        "missing-id" false =
      (QueryResult.err
        ("Symbol with ID \"" ++ "missing-id" ++ "\" not found"),
        [{ id := "river", name := "River", category := "flow",
           description := "d", interpretations := [], related_symbols := [],
           properties := [], created_at := 0, updated_at := 0 }]) ∧
    PrismaDatabase.deleteSymbol
        [{ id := "river", name := "River", category := "flow",
           description := "d", interpretations := [], related_symbols := [],
           properties := [], created_at := 0, updated_at := 0 }]
        "missing-id" false 3 =
      (QueryResult.err
        ("Symbol with ID \"" ++ "missing-id" ++ "\" not found"),
        [{ id := "river", name := "River", category := "flow",
           description := "d", interpretations := [], related_symbols := [],
           properties := [], created_at := 0, updated_at := 0 }]) :=
  claim6_theorem _ _ "missing-id" false 3 (by decide) (by decide)

/-- C7: on a store with pairwise distinct ids holding more than `2n`
records, two consecutive demo-backend pages of size `n` have disjoint id
sets and their concatenation in order is the single page of size `2n` at
the same offset. -/
theorem claim7_theorem (db : List Symbol) (n k : Nat)
    (_hlen : 2 * n < db.length)
    (hids : (db.map Symbol.id).Nodup) :
    List.Disjoint
      (((DemoDatabase.getSymbols db
          { limit := some n, offset := some k }).dataD []).map Symbol.id)
      (((DemoDatabase.getSymbols db
          { limit := some n, offset := some (k + n) }).dataD []).map Symbol.id) ∧
    ((DemoDatabase.getSymbols db
        { limit := some n, offset := some k }).dataD []) ++
      ((DemoDatabase.getSymbols db
          { limit := some n, offset := some (k + n) }).dataD []) =
      (DemoDatabase.getSymbols db
        { limit := some (2 * n), offset := some k }).dataD [] := by
  have hcat : ((db.drop k).take n) ++ ((db.drop (k + n)).take n) =
      (db.drop k).take (2 * n) := by
    rw [two_mul, List.take_add]
    congr 2
    rw [List.drop_drop]
  constructor
  · show List.Disjoint (((db.drop k).take n).map Symbol.id)
      (((db.drop (k + n)).take n).map Symbol.id)
    have hsub :
        (((db.drop k).take n) ++ ((db.drop (k + n)).take n)).Sublist db := by
      rw [hcat]
      exact (List.take_sublist _ _).trans (List.drop_sublist _ _)
    have hnd :
        ((((db.drop k).take n) ++
          ((db.drop (k + n)).take n)).map Symbol.id).Nodup :=
      List.Nodup.sublist (hsub.map Symbol.id) hids
    rw [List.map_append] at hnd
    exact (List.nodup_append.mp hnd).2.2
  · show ((db.drop k).take n) ++ ((db.drop (k + n)).take n) =
      (db.drop k).take (2 * n)
    exact hcat

/-- C7 witness: the pagination invariant on the concrete five-record
store with `n = 2`, `k = 0`. -/
theorem claim7_witness :
    (2 * 2 < sampleStore.length ∧ (sampleStore.map Symbol.id).Nodup) ∧
    (List.Disjoint
        (((DemoDatabase.getSymbols sampleStore
            { limit := some 2, offset := some 0 }).dataD []).map Symbol.id)
        (((DemoDatabase.getSymbols sampleStore
            { limit := some 2, offset := some (0 + 2) }).dataD []).map
          Symbol.id) ∧
      ((DemoDatabase.getSymbols sampleStore
          { limit := some 2, offset := some 0 }).dataD []) ++
        ((DemoDatabase.getSymbols sampleStore
            { limit := some 2, offset := some (0 + 2) }).dataD []) =
        (DemoDatabase.getSymbols sampleStore
          { limit := some (2 * 2), offset := some 0 }).dataD []) :=
  ⟨⟨by decide, by decide⟩, claim7_theorem sampleStore 2 0 (by decide) (by decide)⟩

/-- C8: an export whose filter (id allow-list, category, or none) matches
no stored symbol returns the explicit no-rows failure with an exported
count of 0 and does not invoke the file writer. -/
theorem claim8_theorem (db : List Symbol) (options : CsvService.ExportOptions)
    (h : ∀ s ∈ db, CsvService.matchesExportFilter options s = false) :
    CsvService.exportSymbols db options =
      ({ success := false, exported := 0, filePath := options.filePath,
         error := some "No symbols found matching the criteria" }, false) := by
  have hsel : CsvService.exportSelection db options = [] := by
    unfold CsvService.exportSelection
    split
    · rename_i hids
      show ((db.drop 0).take 10000).filter
          (fun s => (options.symbolIds.getD []).contains s.id) = []
      rw [List.filter_eq_nil_iff]
      intro a ha
      have hadb : a ∈ db :=
        ((List.take_sublist _ _).trans (List.drop_sublist _ _)).subset ha
      have hm := h a hadb
      simp only [CsvService.matchesExportFilter, if_pos hids] at hm
      intro hmem
      rw [hm] at hmem
      cases hmem
    · rename_i hids
      split
      · rename_i category hcat
        split
        · rename_i hemp
          show (db.drop 0).take 10000 = []
          cases db with
          | nil => rfl
          | cons a l =>
            have hm := h a (List.mem_cons_self a l)
            simp [CsvService.matchesExportFilter, hids, hcat, hemp] at hm
        · rename_i hemp
          show ((db.filter
              fun s => normalize s.category == normalize category).drop
                0).take 10000 = []
          have hfil :
              db.filter
                (fun s => normalize s.category == normalize category) = [] := by
            rw [List.filter_eq_nil_iff]
            intro a ha
            have hm := h a ha
            simp only [CsvService.matchesExportFilter, if_neg hids, hcat,
              if_neg hemp] at hm
            simp [hm]
          rw [hfil]
          rfl
      · rename_i hcat
        show (db.drop 0).take 10000 = []
        cases db with
        | nil => rfl
        | cons a l =>
          have hm := h a (List.mem_cons_self a l)
          simp [CsvService.matchesExportFilter, hids, hcat] at hm
  unfold CsvService.exportSymbols
  rw [hsel]
  rfl

/-- C8 witness: exporting the category "nothing" from a store whose only
record has category "flow". -/
theorem claim8_witness :
    CsvService.exportSymbols
        [{ id := "river", name := "River", category := "flow",
           description := "d", interpretations := [], related_symbols := [],
           properties := [], created_at := 0, updated_at := 0 }]
        { filePath := "out.csv", category := some "nothing",
          symbolIds := none } =
      ({ success := false, exported := 0, filePath := "out.csv",
         error := some "No symbols found matching the criteria" }, false) :=
  claim8_theorem _ _ (by decide)

/-- C9: every Data-Access failure is converted into the Result Envelope
and the caller never receives a raised exception, including `connect` and
`initializeSchema`.  COUNTEREXAMPLE: both the Prisma and the PostgreSQL
`connect` re-throw a wrapped `Error` to the caller when the underlying
connection test fails. -/
theorem claim9_counterexample :
    PrismaDatabase.connectRun (Except.error "connection refused") =
      Except.error
        ("Failed to connect to database: " ++ "connection refused") ∧
    PostgreSQLDatabase.connectRun (Except.error "connection refused") =
      Except.error
        ("Failed to connect to database: " ++ "connection refused") :=
  ⟨rfl, rfl⟩

/-- C9 amended: the query/CRUD backend methods catch their failures and
return a failure envelope (shown for the Prisma `getSymbols` body: every
oracle outcome yields an envelope, never a propagated exception), but the
lifecycle methods `connect` (Prisma and PostgreSQL) and
`initializeSchema` re-throw a wrapped error to the caller instead of
returning an envelope. -/
theorem claim9_theorem :
    (∀ (connected : Bool) (clientFindMany : Except String (List Symbol)),
        ∃ env, PrismaDatabase.getSymbolsRun connected clientFindMany =
          Except.ok env) ∧
    (∀ m : String, PrismaDatabase.connectRun (Except.error m) =
        Except.error ("Failed to connect to database: " ++ m)) ∧
    (∀ m : String, PostgreSQLDatabase.connectRun (Except.error m) =
        Except.error ("Failed to connect to database: " ++ m)) ∧
    (∀ (includeSampleData : Bool) (seedRun : Except String Unit)
        (m : String),
        PrismaDatabase.initializeSchemaRun true includeSampleData
            (Except.error m) seedRun =
          Except.error ("Failed to initialize database schema: " ++ m)) := by
  refine ⟨?_, fun m => rfl, fun m => rfl, fun incl seed m => rfl⟩
  intro connected client
  cases connected
  · exact ⟨.err "Database not connected", rfl⟩
  · cases client with
    | error m => exact ⟨.err m, rfl⟩
    | ok rows => exact ⟨.ok rows, rfl⟩

/-- C10: the CSV import duplicate probe is `getSymbols({limit: 1})`, so a
row is classified as already existing exactly when its id equals the id
of the single probed (first stored) symbol; any other already-present id
passes the probe and is forwarded to `createSymbol`, whose duplicate
failure is recorded as a row-level error (not a skip), leaving the store
unchanged. -/
theorem claim10_theorem (a : Symbol) (rest : List Symbol)
    (row : SymbolInput) (skipDuplicates : Bool) (now : Nat) :
    DemoDatabase.getSymbols (a :: rest) { limit := some 1 } =
      QueryResult.ok [a] ∧
    (row.id = a.id → skipDuplicates = true →
      CsvService.importRow (a :: rest) row skipDuplicates now =
        (.skipped, a :: rest)) ∧
    (row.id ≠ a.id →
      (a :: rest).any (fun item => item.id == row.id) = true →
      CsvService.importRow (a :: rest) row skipDuplicates now =
        (.rowError ("Symbol with ID \"" ++ row.id ++ "\" already exists"),
          a :: rest)) := by
  refine ⟨rfl, ?_, ?_⟩
  · intro heq hskip
    subst hskip
    unfold CsvService.importRow
    simp [DemoDatabase.getSymbols, heq]
  · intro hne hany
    unfold CsvService.importRow
    have hex : (a.id == row.id) = false := by
      simp only [beq_eq_false_iff_ne, ne_eq]
      exact fun hc => hne hc.symm
    simp [DemoDatabase.getSymbols, hex, DemoDatabase.createSymbol, hany]

/-- C10 witness: a two-record store whose second id "dup" is re-imported:
the probe sees only the first record, so the row reaches `createSymbol`
and its duplicate failure is recorded as a row error; a row matching the
probed first id "first" is skipped instead. -/
theorem claim10_witness :
    CsvService.importRow
        [⟨"first", "F", "c", "d", [], [], [], 0, 0⟩,
         ⟨"dup", "D", "c", "d", [], [], [], 0, 0⟩]
        { id := "first", name := "F2", category := "c", description := "d",
          interpretations := [], related_symbols := [], properties := [] }
        true 5 =
      (.skipped,
        [⟨"first", "F", "c", "d", [], [], [], 0, 0⟩,
         ⟨"dup", "D", "c", "d", [], [], [], 0, 0⟩]) ∧
    CsvService.importRow
        [⟨"first", "F", "c", "d", [], [], [], 0, 0⟩,
         ⟨"dup", "D", "c", "d", [], [], [], 0, 0⟩]
        { id := "dup", name := "D2", category := "c", description := "d",
          interpretations := [], related_symbols := [], properties := [] }
        true 5 =
      (.rowError ("Symbol with ID \"" ++ "dup" ++ "\" already exists"),
        [⟨"first", "F", "c", "d", [], [], [], 0, 0⟩,
         ⟨"dup", "D", "c", "d", [], [], [], 0, 0⟩]) :=
  ⟨(claim10_theorem
      { id := "first", name := "F", category := "c", description := "d",
        interpretations := [], related_symbols := [], properties := [],
        created_at := 0, updated_at := 0 }
      [⟨"dup", "D", "c", "d", [], [], [], 0, 0⟩]
      { id := "first", name := "F2", category := "c", description := "d",
        interpretations := [], related_symbols := [], properties := [] }
      true 5).2.1 rfl rfl,
    (claim10_theorem
      { id := "first", name := "F", category := "c", description := "d",
        interpretations := [], related_symbols := [], properties := [],
        created_at := 0, updated_at := 0 }
      [⟨"dup", "D", "c", "d", [], [], [], 0, 0⟩]
      { id := "dup", name := "D2", category := "c", description := "d",
        interpretations := [], related_symbols := [], properties := [] }
      true 5).2.2 (by decide) (by decide)⟩

end SymbolsMcp
